import Mathlib

/-!
Shallow embedding of `src/valgrind_icd.cpp`: a two-function facade over the
Valgrind callgrind instrumentation macros.  Each C++ entry point becomes a
pure Lean function parameterised by the compile-time feature flag
`ICD_VALGRIND` (whether the backend is linked in).  A call returns its C
return value together with the ordered list of observable events it emits:
`Rcout` console notices, `DEBUG` diagnostics, and backend macro invocations.
-/

/-- The three callgrind backend macros the facade can invoke. -/
inductive Signal where
  | startInstrumentation  -- CALLGRIND_START_INSTRUMENTATION
  | zeroStats             -- CALLGRIND_ZERO_STATS
  | stopInstrumentation   -- CALLGRIND_STOP_INSTRUMENTATION
deriving DecidableEq, Repr

/-- An observable event emitted by a call: console output via `Rcout`,
a backend macro invocation, or a `DEBUG` diagnostic line. -/
inductive Event where
  | rcout (s : String)
  | backend (sig : Signal)
  | debug (s : String)
deriving DecidableEq, Repr

/-- `valgrindCallgrindStart` from `valgrind_icd.cpp` lines 7-20.
`icdValgrind` is the compile-time `ICD_VALGRIND` flag; `zerostats` is the
C++ parameter (default `false`).  The `if (zerostats) {};` on line 8 is a
no-op and contributes nothing.  Returns the C return value and the emitted
events in order. -/
def valgrindCallgrindStart (icdValgrind : Bool) (zerostats : Bool) :
    Int × List Event :=
  if icdValgrind then
    (0,
      [Event.rcout "Starting callgrind instrumentation...",
       Event.backend Signal.startInstrumentation] ++
      (if zerostats then
        [Event.rcout "Zeroing callgrind stats.",
         Event.backend Signal.zeroStats]
       else []))
  else
    (0, [Event.debug "NOT starting Valgrind callgrind instrumentation, not linked"])

/-- `valgrindCallgrindStop` from `valgrind_icd.cpp` lines 23-31. -/
def valgrindCallgrindStop (icdValgrind : Bool) : Int × List Event :=
  if icdValgrind then
    (0, [Event.rcout "Stopping Valgrind callgrind instrumentation...",
         Event.backend Signal.stopInstrumentation])
  else
    (0, [Event.debug "NOT stopping Valgrind callgrind instrumentation, not linked."])

/-- Extract the backend signal of an event, if any; used to observe which
instrumentation calls a trace makes. -/
def eventSignal : Event → Option Signal
  | Event.backend sig => some sig
  | _ => none

/-- Blank out the text of `DEBUG` diagnostics, leaving everything else
intact: two traces equal after `scrubDebug` are identical except possibly
for diagnostic text. -/
def scrubDebug : Event → Event
  | Event.debug _ => Event.debug ""
  | e => e

/-- The simulated external backend: it owns the true instrumentation state
(whether instrumentation is running) and its accumulated statistics,
modelled as a counter of zero-stats resets it has received. -/
structure BackendState where
  instrumenting : Bool
  zeroCount : Nat
deriving DecidableEq, Repr

/-- How a backend macro invocation updates the simulated backend. -/
def applySignal (σ : BackendState) : Signal → BackendState
  | Signal.startInstrumentation => { σ with instrumenting := true }
  | Signal.zeroStats => { σ with zeroCount := σ.zeroCount + 1 }
  | Signal.stopInstrumentation => { σ with instrumenting := false }

/-- Fold a trace of events over the backend: only backend macro
invocations touch it; console and debug output never do. -/
def applyEvents (σ : BackendState) : List Event → BackendState
  | [] => σ
  | Event.backend sig :: es => applyEvents (applySignal σ sig) es
  | _ :: es => applyEvents σ es

/-- A call a host caller can make on the facade. -/
inductive Call where
  | start (zerostats : Bool)
  | stop
deriving DecidableEq, Repr

/-- Semantics of one call, fixed by the build flag and the arguments. -/
def runCall (icdValgrind : Bool) : Call → Int × List Event
  | Call.start z => valgrindCallgrindStart icdValgrind z
  | Call.stop => valgrindCallgrindStop icdValgrind

/-- Run a sequence of calls against the simulated backend, threading the
backend state through, and collect every return value, the concatenated
event trace, and the final backend state. -/
def runCalls (icdValgrind : Bool) (σ : BackendState) :
    List Call → List Int × List Event × BackendState
  | [] => ([], [], σ)
  | c :: cs =>
    let r := runCall icdValgrind c
    let rest := runCalls icdValgrind (applyEvents σ r.2) cs
    (r.1 :: rest.1, r.2 ++ rest.2.1, rest.2.2)

/-- Helper: a single call, whatever its arguments and whichever build, has
return value 0. -/
theorem runCall_fst_eq_zero (icdValgrind : Bool) (c : Call) :
    (runCall icdValgrind c).1 = 0 := by
  cases c <;> cases icdValgrind <;> rfl

/-- C1: for every boolean value of the `resetCounters` argument and in both
build configurations (backend present or absent), `valgrindCallgrindStart`
returns exactly 0; it has no failure path in either branch. -/
theorem start_always_returns_zero :
    ∀ (icdValgrind zerostats : Bool),
      (valgrindCallgrindStart icdValgrind zerostats).1 = 0 := by
  decide

/-- C2: `valgrindCallgrindStop` takes no input beyond the build flag and
returns exactly 0 in both build configurations; its error taxonomy is
empty. -/
theorem stop_always_returns_zero :
    ∀ icdValgrind : Bool, (valgrindCallgrindStop icdValgrind).1 = 0 := by
  decide

/-- C3: with the backend flag disabled, `start(true)` makes no
instrumentation call (its trace contains no backend signal), returns the
same value as `start(false)`, and its trace coincides with that of
`start(false)` once diagnostic text is blanked out; the `resetCounters`
flag has no effect in this branch. -/
theorem start_no_backend_flag_irrelevant :
    ((valgrindCallgrindStart false true).2.filterMap eventSignal = []) ∧
    ((valgrindCallgrindStart false true).1 = (valgrindCallgrindStart false false).1) ∧
    ((valgrindCallgrindStart false true).2.map scrubDebug =
      (valgrindCallgrindStart false false).2.map scrubDebug) := by
  decide

/-- C4: with the backend present, `start(true)` then `stop()` both return 0
and emit, in exactly this order: a starting notice, the
start-instrumentation signal, a second notice, the zero-stats signal, a
stopping notice, the stop-instrumentation signal — so the backend receives
start-instrumentation, zero-stats, stop-instrumentation in that order,
each preceded by a notice.  This holds from any initial backend state. -/
theorem start_true_then_stop_trace (σ : BackendState) :
    (runCalls true σ [Call.start true, Call.stop]).1 = [0, 0] ∧
    (runCalls true σ [Call.start true, Call.stop]).2.1 =
      [Event.rcout "Starting callgrind instrumentation...",
       Event.backend Signal.startInstrumentation,
       Event.rcout "Zeroing callgrind stats.",
       Event.backend Signal.zeroStats,
       Event.rcout "Stopping Valgrind callgrind instrumentation...",
       Event.backend Signal.stopInstrumentation] ∧
    (runCalls true σ [Call.start true, Call.stop]).2.1.filterMap eventSignal =
      [Signal.startInstrumentation, Signal.zeroStats, Signal.stopInstrumentation] := by
  refine ⟨rfl, rfl, rfl⟩

/-- C5: with the backend present, `start` signals the backend to zero its
statistics (and emits the second notice) exactly when `resetCounters` is
true; when it is false the trace is the single starting notice followed by
the start-instrumentation signal, and the backend's accumulated statistics
counter is left untouched from any backend state. -/
theorem start_zero_stats_iff (z : Bool) (σ : BackendState) :
    (Event.backend Signal.zeroStats ∈ (valgrindCallgrindStart true z).2 ↔ z = true) ∧
    (Event.rcout "Zeroing callgrind stats." ∈ (valgrindCallgrindStart true z).2 ↔ z = true) ∧
    (valgrindCallgrindStart true false).2 =
      [Event.rcout "Starting callgrind instrumentation...",
       Event.backend Signal.startInstrumentation] ∧
    (applyEvents σ (valgrindCallgrindStart true false).2).zeroCount = σ.zeroCount := by
  refine ⟨?_, ?_, rfl, rfl⟩ <;> cases z <;> decide

/-- C6: no call order raises an error: running any sequence of calls from
any backend state, in either build configuration, yields return value 0
from every call — in particular `stop` before any `start`, and `start`
twice in succession, each return 0. -/
theorem all_calls_return_zero (icdValgrind : Bool) (σ : BackendState)
    (cs : List Call) :
    (runCalls icdValgrind σ cs).1 = List.replicate cs.length 0 := by
  induction cs generalizing σ with
  | nil => rfl
  | cons c cs ih =>
    simp only [runCalls, List.length_cons, List.replicate_succ, ih,
      runCall_fst_eq_zero]

/-- C7: with the backend absent, `stop` makes no instrumentation call and
emits exactly one debug diagnostic stating the backend is not linked, then
returns 0. -/
theorem stop_no_backend_diagnostic_only :
    valgrindCallgrindStop false =
      (0, [Event.debug "NOT stopping Valgrind callgrind instrumentation, not linked."]) ∧
    (valgrindCallgrindStop false).2.filterMap eventSignal = [] := by
  decide

/-- C8: in the backend-absent build the debug diagnostic emitted by `start`
is the same fixed string whether `resetCounters` is true or false, so
`start(true)` and `start(false)` are observably identical including the
diagnostic text. -/
theorem start_no_backend_fully_identical :
    valgrindCallgrindStart false true = valgrindCallgrindStart false false := by
  decide

/-- C9: both operations are deterministic — for a fixed build
configuration, two invocations with equal arguments produce identical
return values and identical event traces. -/
theorem facade_deterministic (icdValgrind z1 z2 : Bool) (h : z1 = z2) :
    valgrindCallgrindStart icdValgrind z1 = valgrindCallgrindStart icdValgrind z2 ∧
    valgrindCallgrindStop icdValgrind = valgrindCallgrindStop icdValgrind := by
  subst h
  exact ⟨rfl, rfl⟩

/-- Witness for C9 at concrete arguments. -/
theorem facade_deterministic_witness :
    valgrindCallgrindStart true true = valgrindCallgrindStart true true ∧
    valgrindCallgrindStop true = valgrindCallgrindStop true :=
  facade_deterministic true true true rfl

/-- C10: the facade owns no mutable state — in any call sequence, each
call's return value and emitted events depend only on that call's
arguments and the build flag, never on the initial backend state or the
history of previous calls: a run is exactly the per-call semantics mapped
over the sequence. -/
theorem facade_stateless (icdValgrind : Bool) (σ : BackendState)
    (cs : List Call) :
    (runCalls icdValgrind σ cs).1 = cs.map (fun c => (runCall icdValgrind c).1) ∧
    (runCalls icdValgrind σ cs).2.1 =
      (cs.map (fun c => (runCall icdValgrind c).2)).flatten := by
  induction cs generalizing σ with
  | nil => exact ⟨rfl, rfl⟩
  | cons c cs ih =>
    obtain ⟨ih1, ih2⟩ := ih (applyEvents σ (runCall icdValgrind c).2)
    exact ⟨by simp only [runCalls, List.map_cons, ih1],
           by simp only [runCalls, List.map_cons, List.flatten_cons, ih2]⟩
